import Mathlib

/-!
Verification of the filter/aggregation pipeline of `terrorism_dashboard.py`.

The dashboard loads a CSV of incident records, enriches it (`load_data`),
filters it by the widget state (`filter_data`), and fans the filtered subset
out to ~30 aggregation functions (`update_*`) that each publish one tabular
source.  This file embeds the loader, the filter engine and the aggregation
functions relevant to the stated properties as executable Lean definitions
over lists of records, and proves or refutes each property.

Conventions of the embedding:
* a pandas DataFrame is a `List Row`; a nullable cell is an `Option`;
* integer-valued numeric columns (`iyear`, `nkill`, `nwound`, `casualties`)
  are `Int` (the CSV stores whole counts; pandas uses float64 only to admit
  NaN, which the loader fills with 0);
* quantities produced by division (quantiles, shares, averages) are `ℚ`;
* float NaN is `Option.none`; column-wise operations that skip NaN
  (`sum`, `dropna`, group keys) are modelled with `filterMap`/`Option`.
-/

/-- One loaded incident record: the columns of the enriched DataFrame that
the verified properties touch, as produced by `load_data`
(`terrorism_dashboard.py` lines 122-179).  `provstate` is the one
categorical column the loader does not null-fill, hence `Option String`;
`success_flag`/`suicide_flag` come from `Series.map` on a `{1,0}` dictionary,
which yields NaN for any other value, hence `Option String`. -/
structure Row where
  iyear : Int
  country_txt : String
  region_txt : String
  provstate : Option String
  city : String
  latitude : Option ℚ
  longitude : Option ℚ
  success_flag : Option String
  suicide_flag : Option String
  attacktype1_txt : String
  targtype1_txt : String
  weaptype1_txt : String
  gname : String
  nkill : Int
  nwound : Int
  casualties : Int
deriving DecidableEq

/-- One raw CSV record before `load_data`'s enrichment: every column that the
loader fills or derives is nullable here. -/
structure RawRow where
  iyear : Int
  imonth : Int
  iday : Int
  country_txt : Option String
  region_txt : Option String
  provstate : Option String
  city : Option String
  latitude : Option ℚ
  longitude : Option ℚ
  success : Int
  suicide : Int
  attacktype1_txt : Option String
  targtype1_txt : Option String
  weaptype1_txt : Option String
  gname : Option String
  nkill : Option Int
  nwound : Option Int
deriving DecidableEq

/-- The long weapon label that `load_data` rewrites to `"Vehicle"`. -/
def vehicleLongLabel : String :=
  "Vehicle (not to include vehicle-borne explosives, i.e., car or truck bombs)"

/-- Row-wise embedding of the enrichment in `load_data`
(`terrorism_dashboard.py` lines 146-178): null-fill of `nkill`/`nwound`,
`casualties = nkill + nwound`, the `{1,0} -> label` maps for
`success_flag`/`suicide_flag`, and the sentinel fills for the categorical
columns.  `provstate` has no corresponding fill in the source and is carried
through unchanged. -/
def loadRow (r : RawRow) : Row :=
  let killed := r.nkill.getD 0
  let wounded := r.nwound.getD 0
  { iyear := r.iyear
    country_txt := r.country_txt.getD "Unknown country"
    region_txt := r.region_txt.getD "Unknown region"
    provstate := r.provstate
    city := r.city.getD "Unknown city"
    latitude := r.latitude
    longitude := r.longitude
    success_flag :=
      if r.success = 1 then some "Successful"
      else if r.success = 0 then some "Failed" else none
    suicide_flag :=
      if r.suicide = 1 then some "Suicide"
      else if r.suicide = 0 then some "Non-suicide" else none
    attacktype1_txt := r.attacktype1_txt.getD "Unknown attack"
    targtype1_txt := r.targtype1_txt.getD "Unknown target"
    weaptype1_txt :=
      let w := r.weaptype1_txt.getD "Unknown weapon"
      if w = vehicleLongLabel then "Vehicle" else w
    gname := r.gname.getD "Unknown group"
    nkill := killed
    nwound := wounded
    casualties := killed + wounded }

/-- `load_data` applied to a whole raw table. -/
def loadData (raws : List RawRow) : List Row :=
  raws.map loadRow

/-- The widget values read by `filter_data`: year range, the three
multi-select lists, the two numeric range sliders, and the two ternary
selectors (`"All"` disables the corresponding predicate). -/
structure FilterState where
  yearLo : Int
  yearHi : Int
  regionsSel : List String
  attacksSel : List String
  targetsSel : List String
  fatalityLo : Int
  fatalityHi : Int
  casualtyLo : Int
  casualtyHi : Int
  successSel : String
  suicideSel : String
deriving DecidableEq

/-- A conditionally applied filter stage: Python's
`if cond: subset = subset[pred]`. -/
def filterIf (b : Bool) (p : Row → Bool) (l : List Row) : List Row :=
  if b then l.filter p else l

/-- Embedding of `filter_data` (`terrorism_dashboard.py` lines 1389-1413):
the eight filter stages applied in source order.  The three multi-select
stages run only when the selection list is non-empty (Python truthiness of
`region_select.value`), and the two selector stages only when the selector
is not `"All"`. -/
def filterData (fs : FilterState) (data : List Row) : List Row :=
  let s1 := data.filter (fun r => decide (fs.yearLo ≤ r.iyear) && decide (r.iyear ≤ fs.yearHi))
  let s2 := filterIf (!fs.regionsSel.isEmpty) (fun r => decide (r.region_txt ∈ fs.regionsSel)) s1
  let s3 := filterIf (!fs.attacksSel.isEmpty) (fun r => decide (r.attacktype1_txt ∈ fs.attacksSel)) s2
  let s4 := filterIf (!fs.targetsSel.isEmpty) (fun r => decide (r.targtype1_txt ∈ fs.targetsSel)) s3
  let s5 := s4.filter (fun r => decide (fs.fatalityLo ≤ r.nkill) && decide (r.nkill ≤ fs.fatalityHi))
  let s6 := s5.filter (fun r => decide (fs.casualtyLo ≤ r.casualties) && decide (r.casualties ≤ fs.casualtyHi))
  let s7 := filterIf (fs.successSel ≠ "All") (fun r => decide (r.success_flag = some fs.successSel)) s6
  filterIf (fs.suicideSel ≠ "All") (fun r => decide (r.suicide_flag = some fs.suicideSel)) s7

/-- The specification predicate for `filter_data`: the conjunction of all
active predicates, stated declaratively (an empty selection list imposes no
restriction; a selector equal to `"All"` imposes no restriction). -/
def matchesFilter (fs : FilterState) (r : Row) : Prop :=
  (fs.yearLo ≤ r.iyear ∧ r.iyear ≤ fs.yearHi) ∧
  (fs.regionsSel = [] ∨ r.region_txt ∈ fs.regionsSel) ∧
  (fs.attacksSel = [] ∨ r.attacktype1_txt ∈ fs.attacksSel) ∧
  (fs.targetsSel = [] ∨ r.targtype1_txt ∈ fs.targetsSel) ∧
  (fs.fatalityLo ≤ r.nkill ∧ r.nkill ≤ fs.fatalityHi) ∧
  (fs.casualtyLo ≤ r.casualties ∧ r.casualties ≤ fs.casualtyHi) ∧
  (fs.successSel = "All" ∨ r.success_flag = some fs.successSel) ∧
  (fs.suicideSel = "All" ∨ r.suicide_flag = some fs.suicideSel)

/-! ### Group-count/sum + Top-N aggregations (C6) -/

/-- One group row of a one-column group-count/sum aggregation: the category
label, the incident count, and the summed casualties. -/
structure CatAgg where
  label : String
  incidents : Nat
  casualties : Int
deriving DecidableEq

/-! ### Generic list machinery

The pandas sorts are modelled with a structural insertion sort (so that
concrete instances evaluate inside the kernel), and the group-by key sets
with `dedup`. -/

/-- Insert `a` into `l` before the first element `b` with `le a b`. -/
def insertLe {α : Type} (le : α → α → Bool) (a : α) : List α → List α
  | [] => [a]
  | b :: t => if le a b then a :: b :: t else b :: insertLe le a t

/-- Insertion sort by the boolean relation `le`. -/
def sortBy {α : Type} (le : α → α → Bool) : List α → List α
  | [] => []
  | a :: t => insertLe le a (sortBy le t)

/-- Code-point comparison of character lists, the order Python's `sorted`
uses on strings. -/
def strLeList : List Char → List Char → Bool
  | [], _ => true
  | _ :: _, [] => false
  | a :: as, b :: bs => if a = b then strLeList as bs else decide (a.val < b.val)

/-- Code-point comparison of strings (Python's string order). -/
def strLe (a b : String) : Bool := strLeList a.data b.data

/-- Ascending comparison on `ℚ` as a boolean. -/
def ratLe (a b : ℚ) : Bool := decide (a ≤ b)

/-- Ascending comparison on `Int` as a boolean. -/
def intLe (a b : Int) : Bool := decide (a ≤ b)

/-! ### `update_map` grouping (C4) -/

/-- The six-column group key of `update_map`
(`terrorism_dashboard.py` lines 1424-1427).  A key exists only when every
component is non-null; pandas `groupby` silently drops rows whose key
contains NaN. -/
structure MapKey where
  country : String
  region : String
  provstate : String
  city : String
  latitude : ℚ
  longitude : ℚ
deriving DecidableEq

/-- The group key of a row for `update_map`'s groupby, `none` when any key
column is null.  After `dropna(subset=["latitude","longitude"])` the only
possibly-null key column is `provstate`. -/
def mapKeyOf (r : Row) : Option MapKey :=
  match r.provstate, r.latitude, r.longitude with
  | some p, some la, some lo =>
      some { country := r.country_txt, region := r.region_txt, provstate := p,
             city := r.city, latitude := la, longitude := lo }
  | _, _, _ => none

/-- The groups formed by `update_map` (`terrorism_dashboard.py` lines
1417-1427): drop rows with null coordinates, then group by the six key
columns, dropping rows with a null group key (pandas groupby semantics). -/
def updateMapGroups (subset : List Row) : List (MapKey × List Row) :=
  let geo := subset.filter (fun r => r.latitude.isSome && r.longitude.isSome)
  (geo.filterMap mapKeyOf).dedup.map
    (fun k => (k, geo.filter (fun r => decide (mapKeyOf r = some k))))

/-- A raw record with non-null coordinates but a null `provstate`: the
loader leaves `provstate` null, so `update_map`'s groupby drops the row. -/
def rawNoProv : RawRow :=
  { iyear := 2001, imonth := 1, iday := 1, country_txt := some "Iraq",
    region_txt := some "Middle East & North Africa", provstate := none,
    city := some "Baghdad", latitude := some 33, longitude := some 44,
    success := 1, suicide := 0, attacktype1_txt := some "Bombing/Explosion",
    targtype1_txt := some "Private Citizens & Property",
    weaptype1_txt := some "Explosives", gname := some "Unknown group",
    nkill := some 1, nwound := some 2 }

/-- A raw record with non-negative kill and a null wound count, used to
instantiate the load invariant. -/
def rawCounts : RawRow :=
  { iyear := 1995, imonth := 0, iday := 0, country_txt := some "Peru",
    region_txt := some "South America", provstate := some "Lima",
    city := some "Lima", latitude := none, longitude := none,
    success := 0, suicide := 0, attacktype1_txt := some "Armed Assault",
    targtype1_txt := some "Police", weaptype1_txt := some "Firearms",
    gname := some "Shining Path", nkill := some 2, nwound := none }

/-! ### `update_org_split` (C10) -/

/-- Embedding of `update_org_split` (`terrorism_dashboard.py` lines
2148-2158): per year (ascending, as pandas groupby orders its keys), the
count of rows whose perpetrator group differs from the sentinel
`"Unknown group"`, and `unorganized = total - organized`.  Output rows are
`(year, organized, unorganized)`. -/
def updateOrgSplit (subset : List Row) : List (Int × Int × Int) :=
  let years := sortBy intLe (subset.map (fun r => r.iyear)).dedup
  years.map (fun y =>
    let yearRows := subset.filter (fun r => decide (r.iyear = y))
    let organized : Int := yearRows.countP (fun r => decide (r.gname ≠ "Unknown group"))
    (y, organized, (yearRows.length : Int) - organized))

/-- A one-row dataset whose single incident has a named perpetrator group. -/
def rowOrg : Row :=
  { iyear := 1999, country_txt := "Sri Lanka", region_txt := "South Asia",
    provstate := some "Northern", city := "Jaffna", latitude := none,
    longitude := none, success_flag := some "Successful",
    suicide_flag := some "Non-suicide", attacktype1_txt := "Armed Assault",
    targtype1_txt := "Military", weaptype1_txt := "Firearms",
    gname := "Liberation Tigers of Tamil Eelam (LTTE)", nkill := 1,
    nwound := 0, casualties := 1 }

/-- Group by one categorical column and aggregate
`incidents = count, casualties = sum`, as the `groupby(...).agg(...)` calls
of `update_country_bar`, `update_attack_bar`, `update_target_bar` and
`update_weapon_bar` do. -/
def catAggBy (key : Row → String) (subset : List Row) : List CatAgg :=
  (subset.map key).dedup.map (fun k =>
    let grp := subset.filter (fun r => decide (key r = k))
    { label := k, incidents := grp.length,
      casualties := (grp.map (fun r => r.casualties)).sum })

/-- Descending order on summed casualties (`sort_values("casualties",
ascending=False)`). -/
def byCasDesc (a b : CatAgg) : Bool := decide (b.casualties ≤ a.casualties)

/-- Descending order on incident count (`sort_values("incidents",
ascending=False)`). -/
def byIncDesc (a b : CatAgg) : Bool := decide (b.incidents ≤ a.incidents)

/-- Descending order of rows on `casualties`
(`sort_values("casualties", ascending=False)` on the raw subset). -/
def rowCasDesc (a b : Row) : Bool := decide (b.casualties ≤ a.casualties)

/-- Descending order of `(city, events, avg_casualties)` triples on the
event count (`sort_values("events", ascending=False)`). -/
def cityDesc (a b : String × Nat × ℚ) : Bool := decide (b.2.1 ≤ a.2.1)

/-- `update_country_bar` (lines 1522-1536): group by country, sort by
casualties descending, truncate to 12 rows. -/
def updateCountryBar (subset : List Row) : List CatAgg :=
  (sortBy byCasDesc (catAggBy (fun r => r.country_txt) subset)).take 12

/-- `update_attack_bar` (lines 1539-1552): group by attack type and sort by
incidents descending — the source applies no `head(...)` truncation here. -/
def updateAttackBar (subset : List Row) : List CatAgg :=
  sortBy byIncDesc (catAggBy (fun r => r.attacktype1_txt) subset)

/-- `update_target_bar` (lines 1555-1569): group by target type, sort by
casualties descending, truncate to 12 rows. -/
def updateTargetBar (subset : List Row) : List CatAgg :=
  (sortBy byCasDesc (catAggBy (fun r => r.targtype1_txt) subset)).take 12

/-- `update_weapon_bar` (lines 1744-1758): group by weapon type, sort by
incidents descending, truncate to 10 rows. -/
def updateWeaponBar (subset : List Row) : List CatAgg :=
  (sortBy byIncDesc (catAggBy (fun r => r.weaptype1_txt) subset)).take 10

/-- `update_hotspots` (lines 1696-1718): restrict to the focus region,
group by city with `events = count, avg_casualties = mean`, sort by events
descending, truncate to 10 rows. -/
def updateHotspots (focus : String) (subset : List Row) : List (String × Nat × ℚ) :=
  let regionRows := subset.filter (fun r => decide (r.region_txt = focus))
  (sortBy cityDesc ((regionRows.map (fun r => r.city)).dedup.map (fun c =>
    let grp := regionRows.filter (fun r => decide (r.city = c))
    (c, grp.length,
      ((grp.map (fun r => r.casualties)).sum : ℚ) / (grp.length : ℚ))))).take 10

/-- `update_table` (lines 2322-2343): the top events, sorted by casualties
descending, truncated to 25 rows. -/
def updateTable (subset : List Row) : List Row :=
  (sortBy rowCasDesc subset).take 25

/-- Twenty-six pairwise distinct attack-type labels. -/
def manyAttackNames : List String :=
  ["a01", "a02", "a03", "a04", "a05", "a06", "a07", "a08", "a09", "a10",
   "a11", "a12", "a13", "a14", "a15", "a16", "a17", "a18", "a19", "a20",
   "a21", "a22", "a23", "a24", "a25", "a26"]

/-- A subset with twenty-six distinct attack types, one incident each. -/
def manyAttackRows : List Row :=
  manyAttackNames.map (fun s => { rowOrg with attacktype1_txt := s })

/-! ### Tabular sources and the empty-subset outputs of the registry (C2)

Every `update_*` function starts with an early return that publishes an
"empty" dictionary when the filtered subset (or its relevant restriction) is
empty.  A `ColumnDataSource.data` dictionary is modelled as an association
list from column name to a list of cell values. -/

/-- A cell value of a tabular source: a string or a number.  (The empty
outputs below publish no cells at all; numeric cells appear only in the
non-empty branch of `update_success_split`.) -/
inductive Val where
  | str : String → Val
  | num : ℚ → Val
deriving DecidableEq

/-- A published tabular source: ordered column name / column pairs. -/
abbrev TabSource := List (String × List Val)

/-- The column-name set of a tabular source. -/
def keysOf (t : TabSource) : List String := t.map Prod.fst

/-- Every column of the source is the empty sequence. -/
abbrev colsNil (t : TabSource) : Prop := ∀ c ∈ t, c.2 = []

/-- Python's `{key: [] for key in src.data.keys()}`. -/
def dictClear (prev : List String) : TabSource :=
  prev.map (fun k => (k, ([] : List Val)))

/-- Python's `d[k] = v` on a dictionary: replace the column if the key is
present, append it otherwise. -/
def setCol (t : TabSource) (k : String) (v : List Val) : TabSource :=
  if t.any (fun c => c.1 = k) then
    t.map (fun c => if c.1 = k then (k, v) else c)
  else t ++ [(k, v)]

/-- Initial key set of `map_source` (source lines 280-296). -/
def mapInitKeys : List String :=
  ["mercator_x", "mercator_y", "country_txt", "region_txt", "city",
   "incidents", "fatalities", "wounded", "casualties", "years", "size",
   "color", "alpha"]

/-- `update_map`'s empty branch (lines 1418-1422): clear every existing
column, then assign `size` and `color` to empty lists. -/
def updateMapEmptyData (prev : List String) : TabSource :=
  setCol (setCol (dictClear prev) "size" []) "color" []

/-- `update_timeline`'s empty branch, renderer source (line 1461). -/
def timelineRendererEmptyData : TabSource := [("year", []), ("metric", [])]

/-- `update_timeline`'s empty branch, events source (line 1462). -/
def timelineEventsEmptyData : TabSource :=
  [("year", []), ("metric", []), ("text", [])]

/-- `update_country_bar`'s empty branch (line 1524). -/
def countryEmptyData : TabSource :=
  [("country_txt", []), ("incidents", []), ("casualties", [])]

/-- `update_attack_bar`'s empty branch (line 1541). -/
def attackBarEmptyData : TabSource :=
  [("attacktype1_txt", []), ("incidents", []), ("casualties", [])]

/-- `update_target_bar`'s empty branch (line 1557). -/
def targetBarEmptyData : TabSource :=
  [("targtype1_txt", []), ("incidents", []), ("casualties", [])]

/-- `update_seasonality`'s empty branch (line 1574). -/
def seasonEmptyData : TabSource := [("month", []), ("incidents", [])]

/-- `update_heatmap`'s empty branch (line 1589). -/
def heatmapEmptyData : TabSource :=
  [("decade", []), ("region", []), ("casualties", []), ("color", [])]

/-- `update_region_stack`'s empty branch, stack source (line 1636):
`dict(year=[], **{region: [] for region in regions})`. -/
def regionStackEmptyData (regions : List String) : TabSource :=
  ("year", ([] : List Val)) :: regions.map (fun rg => (rg, ([] : List Val)))

/-- `update_region_stack`'s empty branch, highlight source (line 1637). -/
def regionHighlightEmptyData : TabSource := [("year", []), ("value", [])]

/-- `update_region_trend`'s empty branch (line 1668). -/
def regionTrendEmptyData : TabSource :=
  [("xs", []), ("ys", []), ("legend", []), ("color", [])]

/-- `update_weapon_bar`'s empty branch (line 1746). -/
def weaponBarEmptyData : TabSource :=
  [("weaptype1_txt", []), ("incidents", []), ("casualties", [])]

/-- `update_period_view`'s empty branch (line 1614). -/
def periodEmptyData : TabSource :=
  [("period", []), ("events", []), ("casualties", [])]

/-- `update_hotspots`' empty branch (line 1700). -/
def hotspotEmptyData : TabSource :=
  [("city", []), ("events", []), ("avg_casualties", []), ("label_x", []),
   ("label_text", [])]

/-- `update_attack_target_matrix`'s empty branch (line 1723). -/
def attackTargetEmptyData : TabSource :=
  [("attack", []), ("target", []), ("incidents", [])]

/-- `update_weapon_share`'s empty branch (line 1764):
`dict(year=[], **{weapon: [] for weapon in top_weapon_types})`. -/
def weaponShareEmptyData (topW : List String) : TabSource :=
  ("year", ([] : List Val)) :: topW.map (fun w => (w, ([] : List Val)))

/-- `update_org_trend`'s empty branch (line 1788). -/
def orgTrendEmptyData (topO : List String) : TabSource :=
  ("year", ([] : List Val)) :: topO.map (fun o => (o, ([] : List Val)))

/-- `update_target_severity`'s empty branch (line 1809). -/
def severityEmptyData : TabSource :=
  [("target", []), ("killed", []), ("wounded", [])]

/-- The empty output of `update_success_split` (lines 1829-1839 and
1845-1855): all nine columns empty. -/
def successEmptyData : TabSource :=
  [("category", []), ("angle", []), ("color", []), ("label", []),
   ("incidents", []), ("percent", []), ("label_x", []), ("label_y", []),
   ("label_short", [])]

/-- `update_region_share`'s empty branch (line 1882): only the index
column — the per-region columns are dropped. -/
def regionShareEmptyData : TabSource := [("decade", [])]

/-- Initial data of `region_share_source` (lines 360-362):
`dict(decade=[], **{region: [] for region in regions})`. -/
def regionShareInitData (regions : List String) : TabSource :=
  ("decade", ([] : List Val)) :: regions.map (fun rg => (rg, ([] : List Val)))

/-- `update_attack_share`'s empty branch (line 1904): only the index
column. -/
def attackShareEmptyData : TabSource := [("year", [])]

/-- Initial data of `attack_share_source` (lines 363-365). -/
def attackShareInitData (topA : List String) : TabSource :=
  ("year", ([] : List Val)) :: topA.map (fun a => (a, ([] : List Val)))

/-- `update_attack_lethality`'s empty branch (line 1924). -/
def lethalityEmptyData : TabSource :=
  [("attack", []), ("incidents", []), ("casualties", []), ("avg", []),
   ("size", []), ("color", [])]

/-- `update_target_percent`'s empty branch (line 1941): only the index
column. -/
def targetPercentEmptyData : TabSource := [("year", [])]

/-- Initial data of `target_percent_source` (line 369). -/
def targetPercentInitData (topT : List String) : TabSource :=
  ("year", ([] : List Val)) :: topT.map (fun t => (t, ([] : List Val)))

/-- `update_sankey`'s empty branch, edge source (line 1961). -/
def sankeyEdgeEmptyData : TabSource :=
  [("xs", []), ("ys", []), ("line_width", []), ("color", []), ("label", []),
   ("incidents", [])]

/-- `update_sankey`'s empty branch, node source (line 1962). -/
def sankeyNodeEmptyData : TabSource :=
  [("x", []), ("y", []), ("name", []), ("color", []), ("type", []),
   ("value", [])]

/-- `update_org_network`'s empty branch, node renderer (line 2093). -/
def orgNetNodeEmptyData : TabSource :=
  [("index", []), ("color", []), ("label", []), ("type", []), ("value", [])]

/-- `update_org_network`'s empty branch, edge renderer (line 2094). -/
def orgNetEdgeEmptyData : TabSource :=
  [("start", []), ("end", []), ("line_width", []), ("line_color", [])]

/-- `update_org_split`'s empty branch (line 2150). -/
def orgSplitEmptyData : TabSource :=
  [("year", []), ("organized", []), ("unorganized", [])]

/-- `update_severity_dual`'s empty branch (line 2163). -/
def severityDualEmptyData : TabSource :=
  [("year", []), ("incidents", []), ("avg_casualties", [])]

/-- Every tabular source published by the registry when the filtered subset
is empty, in `update_dashboard` order (lines 2410-2444).  The `prev`
parameters are the key sets the `{key: [] for key in src.data}` branches
read from their source's current contents; `regions`, `topW`, `topO` are the
startup category lists. -/
def c2EmptyRegistry (regions topW topO : List String)
    (mapPrev timelinePrev boxPrev scatterPrev circlePrev aRegPrev suiPrev
     tacPrev tablePrev : List String) : List TabSource :=
  [updateMapEmptyData mapPrev,
   dictClear timelinePrev,
   timelineRendererEmptyData,
   timelineEventsEmptyData,
   countryEmptyData,
   attackBarEmptyData,
   targetBarEmptyData,
   seasonEmptyData,
   heatmapEmptyData,
   regionStackEmptyData regions,
   regionHighlightEmptyData,
   regionTrendEmptyData,
   weaponBarEmptyData,
   periodEmptyData,
   hotspotEmptyData,
   attackTargetEmptyData,
   weaponShareEmptyData topW,
   orgTrendEmptyData topO,
   severityEmptyData,
   successEmptyData,
   dictClear boxPrev,
   dictClear scatterPrev,
   dictClear circlePrev,
   dictClear aRegPrev,
   dictClear suiPrev,
   dictClear tacPrev,
   regionShareEmptyData,
   attackShareEmptyData,
   lethalityEmptyData,
   targetPercentEmptyData,
   sankeyEdgeEmptyData,
   sankeyNodeEmptyData,
   orgNetNodeEmptyData,
   orgNetEdgeEmptyData,
   orgSplitEmptyData,
   severityDualEmptyData,
   dictClear tablePrev]

/-- The exact rational value of the Python double `math.pi`. -/
def pyPi : ℚ := 884279719003555 / 281474976710656

/-- The denominator `update_success_split` divides by: the count of rows
flagged `"Successful"` plus the count flagged `"Failed"`
(`value_counts().reindex(["Successful", "Failed"]).fillna(0)` then
`counts.sum()`). -/
def successTotal (subset : List Row) : Nat :=
  subset.countP (fun r => decide (r.success_flag = some "Successful")) +
  subset.countP (fun r => decide (r.success_flag = some "Failed"))

/-- Embedding of `update_success_split` (lines 1827-1877): empty subset and
zero total both publish the empty nine-column output; otherwise the wedge
angles and percentages are computed from `count / total`.  The display-only
text formatting of `label`/`label_short` and the `cos/sin * 0.45` screen
mapping of `label_x`/`label_y` are abbreviated: labels carry the category
name and the label positions carry the mid-wedge angle; the column count and
lengths are those of the source. -/
def updateSuccessSplit (subset : List Row) : TabSource :=
  if subset.isEmpty then successEmptyData
  else
    let cS : Nat := subset.countP (fun r => decide (r.success_flag = some "Successful"))
    let cF : Nat := subset.countP (fun r => decide (r.success_flag = some "Failed"))
    let total : Nat := cS + cF
    if total = 0 then successEmptyData
    else
      let tq : ℚ := (total : ℚ)
      let angleS : ℚ := (cS : ℚ) / tq * 2 * pyPi
      let angleF : ℚ := (cF : ℚ) / tq * 2 * pyPi
      [("category", [Val.str "Successful", Val.str "Failed"]),
       ("angle", [Val.num angleS, Val.num angleF]),
       ("color", [Val.str "#2a9d8f", Val.str "#e76f51"]),
       ("label", [Val.str "Successful", Val.str "Failed"]),
       ("incidents", [Val.num (cS : ℚ), Val.num (cF : ℚ)]),
       ("percent", [Val.num ((cS : ℚ) / tq * 100), Val.num ((cF : ℚ) / tq * 100)]),
       ("label_x", [Val.num (angleS / 2), Val.num (angleS + angleF / 2)]),
       ("label_y", [Val.num (angleS / 2), Val.num (angleS + angleF / 2)]),
       ("label_short", [Val.str "Successful", Val.str "Failed"])]

/-- A row whose `success` value was outside `{0, 1}`, so its mapped
`success_flag` is null: it counts toward neither outcome. -/
def rowFlagless : Row := { rowOrg with success_flag := none }

/-! ### Share-over-time pivots (C3) -/

/-- Embedding of `update_weapon_share` (lines 1761-1782).  The source
restricts to the pinned top weapons, pivots `groupby(iyear, weapon).size()`
with `DataFrame.pivot` — whose missing (year, weapon) combinations are NaN —
then `reindex(columns=top_weapon_types, fill_value=0)`.  pandas `reindex`
fills only the *newly introduced* columns with 0; NaN holes inside columns
that already exist in the pivot are left as NaN.  The row total is the
NaN-skipping row sum, floored to 1 when 0, and NaN cells stay NaN through
the division.  A cell is `none` for such a NaN hole. -/
def updateWeaponShare (topW : List String) (subset : List Row) :
    List (Int × List (Option ℚ)) :=
  let filtered := subset.filter (fun r => decide (r.weaptype1_txt ∈ topW))
  if filtered.isEmpty then []
  else
    let years := sortBy intLe (filtered.map (fun r => r.iyear)).dedup
    let observed := filtered.map (fun r => r.weaptype1_txt)
    let cell := fun (y : Int) (w : String) =>
      if w ∈ observed then
        let c := (filtered.filter
          (fun r => decide (r.iyear = y ∧ r.weaptype1_txt = w))).length
        if 0 < c then some ((c : ℚ)) else none
      else some (0 : ℚ)
    years.map (fun y =>
      let cells := topW.map (cell y)
      let total : ℚ := (cells.filterMap id).sum
      let floored : ℚ := if total = 0 then 1 else total
      (y, cells.map (fun c => c.map (fun v => v / floored))))

/-- The shared pivot of `update_attack_share` (lines 1902-1919) and
`update_target_percent` (lines 1939-1956): restrict to rows whose category
is in the pinned list, `groupby(iyear, category).size()`, then
`unstack(fill_value=0)` — which zero-fills every missing (year, category)
combination, so every cell is a plain number — reindex onto the pinned
columns, sort the year index, and divide each row by its total floored to 1
when 0. -/
def sharePivotRows (cats : List String) (key : Row → String)
    (subset : List Row) : List (Int × List ℚ) :=
  let restricted := subset.filter (fun r => decide (key r ∈ cats))
  let years := sortBy intLe (restricted.map (fun r => r.iyear)).dedup
  years.map (fun y =>
    let counts : List ℚ := cats.map (fun a =>
      ((restricted.filter
        (fun r => decide (r.iyear = y ∧ key r = a))).length : ℚ))
    let total := counts.sum
    let floored := if total = 0 then 1 else total
    (y, counts.map (fun c => c / floored)))

/-- `update_attack_share` (lines 1902-1919): empty-subset early return,
then the zero-filling share pivot over attack types. -/
def updateAttackShare (topA : List String) (subset : List Row) :
    List (Int × List ℚ) :=
  if subset.isEmpty then []
  else sharePivotRows topA (fun r => r.attacktype1_txt) subset

/-- `update_target_percent` (lines 1939-1956): empty-subset early return,
then the zero-filling share pivot over target types. -/
def updateTargetPercent (topT : List String) (subset : List Row) :
    List (Int × List ℚ) :=
  if subset.isEmpty then []
  else sharePivotRows topT (fun r => r.targtype1_txt) subset

/-- The pinned top-weapon list of the failing input. -/
def topWeaponsEx : List String := ["Explosives", "Firearms"]

/-- Two incidents in different years with different (top) weapons: the
pivot has a NaN hole at (2000, Firearms) and at (2001, Explosives). -/
def weaponShareExRows : List Row :=
  [{ rowOrg with iyear := 2000, weaptype1_txt := "Explosives" },
   { rowOrg with iyear := 2001, weaptype1_txt := "Firearms" }]

/-! ### Boxplot quantiles (C7) -/

/-- Linear interpolation into a sorted sample at fractional position `h`
(pandas' default `interpolation="linear"`): with `i = floor h` and
`g = h - i`, the value is `x_i + g * (x_(i+1) - x_i)`, clamped to the last
element when `i` is already the last index. -/
def interpAt (xs : List ℚ) (h : ℚ) : ℚ :=
  let i : ℕ := (⌊h⌋).toNat
  let xi := xs.getD i 0
  if i + 1 < xs.length then xi + (h - (i : ℚ)) * (xs.getD (i + 1) 0 - xi)
  else xi

/-- `Series.quantile(p)` with linear interpolation on a sorted sample:
interpolate at position `p * (n - 1)`. -/
def quantileQ (xs : List ℚ) (p : ℚ) : ℚ :=
  interpAt xs (p * ((xs.length : ℚ) - 1))

/-- One output row of `update_boxplot`: the quartiles and Tukey whiskers of
one region's fatality sample.  (The source also emits a display
abbreviation of the region name next to `region_full`; only the full name
is modelled.) -/
structure BoxStat where
  region : String
  q1 : ℚ
  q2 : ℚ
  q3 : ℚ
  lower : ℚ
  upper : ℚ

/-- The per-region body of `update_boxplot` (lines 2183-2202): drop
nulls/infinities, skip the region when nothing remains, otherwise compute
`q1/median/q3` by linear-interpolation quantiles, the IQR, and the Tukey
whiskers `lower = max(min, q1 - 1.5 IQR)`, `upper = min(max, q3 + 1.5 IQR)`.
`Series.min`/`Series.max` are the first/last element of the ascending
sort. -/
def boxRegionStats (region : String) (values : List (Option ℚ)) :
    Option BoxStat :=
  let clean := values.filterMap id
  if clean.isEmpty then none
  else
    let sorted := sortBy ratLe clean
    let q1 := quantileQ sorted (1/4)
    let q2 := quantileQ sorted (1/2)
    let q3 := quantileQ sorted (3/4)
    let iqr := q3 - q1
    let lower := max (sorted.getD 0 0) (q1 - 3/2 * iqr)
    let upper := min (sorted.getD (sorted.length - 1) 0) (q3 + 3/2 * iqr)
    some { region := region, q1 := q1, q2 := q2, q3 := q3,
           lower := lower, upper := upper }

/-- `update_boxplot` (lines 2177-2209): the per-region whisker statistics
of the `nkill` column, regions in sorted order (pandas groupby key order;
the final `sort_values("region_full")` keeps that order), regions with an
empty sample omitted via the `continue`. -/
def updateBoxplot (subset : List Row) : List BoxStat :=
  let regionKeys := sortBy strLe (subset.map (fun r => r.region_txt)).dedup
  regionKeys.filterMap (fun reg =>
    boxRegionStats reg
      ((subset.filter (fun r => decide (r.region_txt = reg))).map
        (fun r => some ((r.nkill : ℚ)))))

/-! ### Web Mercator projection (C9) -/

/-- `to_mercator` (lines 114-119): the spherical Web Mercator projection
`x = lon * (pi/180) * R`, `y = R * ln(tan((90 + lat) * pi/360))` with
`R = 6378137`, on real numbers. -/
noncomputable def toMercator (lat lon : ℝ) : ℝ × ℝ :=
  (lon * (Real.pi / 180) * 6378137,
   Real.log (Real.tan ((90 + lat) * Real.pi / 360)) * 6378137)

/-- Modelled from the spec: the mathematical inverse of the Web Mercator
formula of `to_mercator` (the source defines no inverse; the spec's
round-trip property composes the projection with this inverse):
`lat = arctan(exp(y / R)) * 360/pi - 90`, `lon = x * 180 / (pi * R)`. -/
noncomputable def mercatorInv (xy : ℝ × ℝ) : ℝ × ℝ :=
  (Real.arctan (Real.exp (xy.2 / 6378137)) * 360 / Real.pi - 90,
   xy.1 * 180 / (Real.pi * 6378137))

/-! ### Widget state, startup defaults, and `reset_filters` (C5) -/

/-- `Series.min()` on an integer column (0 for the empty column; the
dashboard's dataset is non-empty). -/
def listMinD : List Int → Int
  | [] => 0
  | x :: xs => xs.foldl min x

/-- `Series.max()` on an integer column. -/
def listMaxD : List Int → Int
  | [] => 0
  | x :: xs => xs.foldl max x

/-- `sorted(series.dropna().unique().tolist())`: distinct values in
Python's string order. -/
def sortedUnique (l : List String) : List String := sortBy strLe l.dedup

/-- `FOCUS_REGIONS` (line 78). -/
def focusRegions : List String :=
  ["Middle East & North Africa", "South Asia", "Sub-Saharan Africa",
   "South America"]

/-- `hotspot_regions` (line 189): the focus regions present in the data,
falling back to the first five regions. -/
def hotspotRegionsOf (data : List Row) : List String :=
  let regions := sortedUnique (data.map (fun r => r.region_txt))
  let f := focusRegions.filter (fun rg => decide (rg ∈ regions))
  if f.isEmpty then regions.take 5 else f

/-- `int(np.quantile(column, 0.95))`: the linear-interpolation 0.95
quantile, truncated to an integer (the columns are non-negative, so
`int()`'s truncation toward zero is the floor). -/
def q95Floor (vals : List Int) : Int :=
  ⌊quantileQ ((sortBy intLe vals).map (fun v => (v : ℚ))) (19/20)⌋

/-- The values of the ten `reset_filters`-touched widgets. -/
structure Widgets where
  yearValue : Int × Int
  regionsValue : List String
  attacksValue : List String
  targetsValue : List String
  fatalityValue : Int × Int
  casualtyValue : Int × Int
  successValue : String
  suicideValue : String
  highlightValue : String
  hotspotValue : String
deriving DecidableEq

/-- The startup widget values (lines 185-274): year range
`(max(year_min, 1990), year_max)`, full sorted selections, `(0, 0.95
quantile)` numeric ranges, `"All"` selectors, `"None"` highlight, and the
first hotspot region (or `"All"` when there is none). -/
def startupWidgets (data : List Row) : Widgets :=
  { yearValue := (max (listMinD (data.map (fun r => r.iyear))) 1990,
      listMaxD (data.map (fun r => r.iyear))),
    regionsValue := sortedUnique (data.map (fun r => r.region_txt)),
    attacksValue := sortedUnique (data.map (fun r => r.attacktype1_txt)),
    targetsValue := sortedUnique (data.map (fun r => r.targtype1_txt)),
    fatalityValue := (0, q95Floor (data.map (fun r => r.nkill))),
    casualtyValue := (0, q95Floor (data.map (fun r => r.casualties))),
    successValue := "All",
    suicideValue := "All",
    highlightValue := "None",
    hotspotValue := match hotspotRegionsOf data with
      | [] => "All"
      | rg :: _ => rg }

/-- Programmatic assignment to a widget's `value`: Bokeh invokes the
callbacks registered with `widget.on_change("value", trigger_update)`
(lines 2823-2836) whenever the property value actually changes, whatever
the origin of the change, and `trigger_update` runs one full
`update_dashboard()`.  `setW old new n` is the refresh count after
assigning `new` over the current value `old`. -/
def setW {α : Type} [DecidableEq α] (old new : α) (n : ℕ) : ℕ :=
  if new = old then n else n + 1

/-- `reset_filters` (lines 2451-2463): assign each touched widget its
recomputed startup value in source order (each actual change firing one
full-dashboard refresh through the registered callback), the hotspot
selector only when `hotspot_regions` is non-empty, then run the one
explicit `update_dashboard()`.  Returns the widget state and the total
refresh count. -/
def resetFilters (data : List Row) (w : Widgets) (n : ℕ) : Widgets × ℕ :=
  let d := startupWidgets data
  let n := setW w.yearValue d.yearValue n
  let n := setW w.regionsValue d.regionsValue n
  let n := setW w.attacksValue d.attacksValue n
  let n := setW w.targetsValue d.targetsValue n
  let n := setW w.fatalityValue d.fatalityValue n
  let n := setW w.casualtyValue d.casualtyValue n
  let n := setW w.successValue d.successValue n
  let n := setW w.suicideValue d.suicideValue n
  let n := setW w.highlightValue d.highlightValue n
  if (hotspotRegionsOf data).isEmpty then
    ({ d with hotspotValue := w.hotspotValue }, n + 1)
  else
    (d, setW w.hotspotValue d.hotspotValue n + 1)

/-- How many of the widgets assigned by `reset_filters` actually change
value (each one fires one refresh before the final explicit one). -/
def changedCount (data : List Row) (w : Widgets) : ℕ :=
  let d := startupWidgets data
  (if d.yearValue = w.yearValue then 0 else 1) +
  (if d.regionsValue = w.regionsValue then 0 else 1) +
  (if d.attacksValue = w.attacksValue then 0 else 1) +
  (if d.targetsValue = w.targetsValue then 0 else 1) +
  (if d.fatalityValue = w.fatalityValue then 0 else 1) +
  (if d.casualtyValue = w.casualtyValue then 0 else 1) +
  (if d.successValue = w.successValue then 0 else 1) +
  (if d.suicideValue = w.suicideValue then 0 else 1) +
  (if d.highlightValue = w.highlightValue then 0 else 1) +
  (if (hotspotRegionsOf data).isEmpty then 0
   else if d.hotspotValue = w.hotspotValue then 0 else 1)

/-- A one-row dataset for the reset counterexample. -/
def exData5 : List Row := [rowOrg]

/-- A widget state at the startup defaults except for the outcome
selector. -/
def wOffDefault : Widgets :=
  { startupWidgets exData5 with successValue := "Successful" }

/-! ### Lemmas about the list machinery -/

theorem mem_filterIf {b : Bool} {p : Row → Bool} {l : List Row} {a : Row} :
    a ∈ filterIf b p l ↔ a ∈ l ∧ (b = true → p a = true) := by
  cases b <;> simp [filterIf, List.mem_filter]

theorem sublist_filterIf (b : Bool) (p : Row → Bool) (l : List Row) :
    (filterIf b p l).Sublist l := by
  cases b <;> simp [filterIf, List.filter_sublist, List.Sublist.refl]

theorem bnotIsEmpty_iff {α : Type} {l : List α} : (!l.isEmpty) = true ↔ l ≠ [] := by
  cases l <;> simp

theorem listGuard_iff {l : List String} {P : Prop} : (l ≠ [] → P) ↔ (l = [] ∨ P) := by
  tauto

theorem strGuard_iff {s t : String} {P : Prop} : (s ≠ t → P) ↔ (s = t ∨ P) := by
  tauto

theorem insertLe_pos {α : Type} {le : α → α → Bool} {a b : α} {t : List α}
    (h : le a b = true) : insertLe le a (b :: t) = a :: b :: t := by
  simp [insertLe, h]

theorem insertLe_neg {α : Type} {le : α → α → Bool} {a b : α} {t : List α}
    (h : ¬le a b = true) : insertLe le a (b :: t) = b :: insertLe le a t := by
  simp [insertLe, h]

theorem mem_insertLe {α : Type} {le : α → α → Bool} {a x : α} {l : List α} :
    x ∈ insertLe le a l ↔ x = a ∨ x ∈ l := by
  induction l with
  | nil => simp [insertLe]
  | cons b t ih =>
    by_cases h : le a b = true
    · simp [insertLe_pos h]
    · simp [insertLe_neg h, ih]
      tauto

theorem length_insertLe {α : Type} (le : α → α → Bool) (a : α) (l : List α) :
    (insertLe le a l).length = l.length + 1 := by
  induction l with
  | nil => rfl
  | cons b t ih =>
    by_cases h : le a b = true
    · simp [insertLe_pos h]
    · simp [insertLe_neg h, ih]

theorem length_sortBy {α : Type} (le : α → α → Bool) (l : List α) :
    (sortBy le l).length = l.length := by
  induction l with
  | nil => rfl
  | cons a t ih => simp [sortBy, length_insertLe, ih]

theorem mem_sortBy {α : Type} {le : α → α → Bool} {x : α} {l : List α} :
    x ∈ sortBy le l ↔ x ∈ l := by
  induction l with
  | nil => simp [sortBy]
  | cons a t ih => simp [sortBy, mem_insertLe, ih]

theorem pairwise_insertLe {α : Type} {le : α → α → Bool} {a : α} {l : List α}
    (htot : ∀ x y, le x y || le y x)
    (htr : ∀ x y z, le x y = true → le y z = true → le x z = true)
    (hl : l.Pairwise (fun x y => le x y = true)) :
    (insertLe le a l).Pairwise (fun x y => le x y = true) := by
  induction l with
  | nil => simp [insertLe]
  | cons b t ih =>
    rcases List.pairwise_cons.mp hl with ⟨hb, ht⟩
    by_cases h : le a b = true
    · rw [insertLe_pos h]
      refine List.pairwise_cons.mpr ⟨?_, hl⟩
      intro y hy
      rcases List.mem_cons.mp hy with hy | hy
      · subst hy; exact h
      · exact htr a b y h (hb y hy)
    · rw [insertLe_neg h]
      refine List.pairwise_cons.mpr ⟨?_, ih ht⟩
      intro y hy
      rcases mem_insertLe.mp hy with h1 | h1
      · rcases Bool.or_eq_true_iff.mp (htot a b) with h' | h'
        · exact absurd h' h
        · exact h1 ▸ h'
      · exact hb y h1

theorem pairwise_sortBy {α : Type} {le : α → α → Bool} (l : List α)
    (htot : ∀ x y, le x y || le y x)
    (htr : ∀ x y z, le x y = true → le y z = true → le x z = true) :
    (sortBy le l).Pairwise (fun x y => le x y = true) := by
  induction l with
  | nil => simp [sortBy]
  | cons a t ih => exact pairwise_insertLe htot htr ih

theorem mapKeyOf_isSome (r : Row) :
    (mapKeyOf r).isSome =
      (r.latitude.isSome && (r.longitude.isSome && r.provstate.isSome)) := by
  cases hp : r.provstate <;> cases hla : r.latitude <;> cases hlo : r.longitude <;>
    simp [mapKeyOf, hp, hla, hlo]

/-! ### C1: the filter engine returns exactly the matching rows -/

/-- Claim C1: for every dataset and filter state, `filter_data` returns
exactly the rows satisfying the conjunction of all active predicates (year
range inclusive; membership in each non-empty selection list, an empty list
imposing no restriction; fatality and casualty ranges inclusive; outcome and
suicide selectors unless `"All"`), and the result is a sublist of the input
(the source filters a copy and never mutates the dataset). -/
theorem c1_filter_data_spec (fs : FilterState) (data : List Row) (r : Row) :
    (r ∈ filterData fs data ↔ r ∈ data ∧ matchesFilter fs r) ∧
    (filterData fs data).Sublist data := by
  constructor
  · simp only [filterData, mem_filterIf, List.mem_filter, Bool.and_eq_true,
      decide_eq_true_eq, bnotIsEmpty_iff, listGuard_iff, strGuard_iff,
      matchesFilter, and_assoc]
  · simp only [filterData]
    exact (sublist_filterIf _ _ _).trans ((sublist_filterIf _ _ _).trans
      ((List.filter_sublist _).trans ((List.filter_sublist _).trans
      ((sublist_filterIf _ _ _).trans ((sublist_filterIf _ _ _).trans
      ((sublist_filterIf _ _ _).trans (List.filter_sublist _)))))))

/-! ### C8: casualties invariant of the loader -/

/-- Claim C8: after `load_data`, every record satisfies
`casualties = nkill + nwound`, and — the raw kill/wound counts being
non-negative whenever present, as in the source dataset's schema — both
counts and hence `casualties` are non-negative, nulls having been replaced
by 0 before summing. -/
theorem c8_casualties_invariant (raw : RawRow)
    (hk : ∀ q ∈ raw.nkill, 0 ≤ q) (hw : ∀ q ∈ raw.nwound, 0 ≤ q) :
    (loadRow raw).casualties = (loadRow raw).nkill + (loadRow raw).nwound ∧
    0 ≤ (loadRow raw).nkill ∧ 0 ≤ (loadRow raw).nwound ∧
    0 ≤ (loadRow raw).casualties := by
  have h1 : 0 ≤ (loadRow raw).nkill := by
    cases hnk : raw.nkill with
    | none => simp [loadRow, hnk]
    | some q => simpa [loadRow, hnk] using hk q (by simp [hnk, Option.mem_def])
  have h2 : 0 ≤ (loadRow raw).nwound := by
    cases hnw : raw.nwound with
    | none => simp [loadRow, hnw]
    | some q => simpa [loadRow, hnw] using hw q (by simp [hnw, Option.mem_def])
  have h3 : (loadRow raw).casualties = (loadRow raw).nkill + (loadRow raw).nwound := rfl
  exact ⟨h3, h1, h2, h3 ▸ add_nonneg h1 h2⟩

/-- Witness for C8 at a concrete raw record (present kill count 2,
null wound count). -/
theorem c8_casualties_invariant_witness :
    (loadRow rawCounts).casualties = (loadRow rawCounts).nkill + (loadRow rawCounts).nwound ∧
    0 ≤ (loadRow rawCounts).nkill ∧ 0 ≤ (loadRow rawCounts).nwound ∧
    0 ≤ (loadRow rawCounts).casualties :=
  c8_casualties_invariant rawCounts (by decide) (by decide)

/-! ### C4: null-filled grouping columns, except `provstate` -/

/-- Counterexample to claim C4: `load_data` never fills `provstate`, yet
`update_map` groups by it.  For a loaded record with coordinates but a null
`provstate`, the column grouped on contains a null and the groupby of
`update_map` silently drops the row: the group list is empty although the
record has non-null coordinates. -/
theorem c4_provstate_counterexample :
    (loadRow rawNoProv).provstate = none ∧
    (loadRow rawNoProv).latitude.isSome = true ∧
    (loadRow rawNoProv).longitude.isSome = true ∧
    updateMapGroups [loadRow rawNoProv] = [] := by
  decide

/-- Claim C4 as amended: after `load_data` the seven categorical columns
that have a fillna in the loader (region, attack type, target type, country,
city, weapon type, perpetrator group) carry their sentinel `"Unknown X"`
label wherever the raw value is null, so they contain no nulls; `provstate`
is carried through unfilled, and a row appears in some group of
`update_map`'s six-column groupby exactly when its coordinates and its
`provstate` are all non-null — rows with a null `provstate` are dropped. -/
theorem c4_null_fill_amended (raw : RawRow) (rows : List Row) (r : Row)
    (hr : r ∈ rows) :
    (loadRow raw).region_txt = raw.region_txt.getD "Unknown region" ∧
    (loadRow raw).attacktype1_txt = raw.attacktype1_txt.getD "Unknown attack" ∧
    (loadRow raw).targtype1_txt = raw.targtype1_txt.getD "Unknown target" ∧
    (loadRow raw).country_txt = raw.country_txt.getD "Unknown country" ∧
    (loadRow raw).city = raw.city.getD "Unknown city" ∧
    (loadRow raw).weaptype1_txt =
      (if raw.weaptype1_txt.getD "Unknown weapon" = vehicleLongLabel
       then "Vehicle" else raw.weaptype1_txt.getD "Unknown weapon") ∧
    (loadRow raw).gname = raw.gname.getD "Unknown group" ∧
    (loadRow raw).provstate = raw.provstate ∧
    ((∃ kg ∈ updateMapGroups rows, r ∈ kg.2) ↔
      (r.latitude.isSome = true ∧ r.longitude.isSome = true ∧
       r.provstate.isSome = true)) := by
  refine ⟨rfl, rfl, rfl, rfl, rfl, rfl, rfl, rfl, ?_⟩
  constructor
  · rintro ⟨kg, hk, hrk⟩
    simp only [updateMapGroups, List.mem_map] at hk
    obtain ⟨k, hkmem, hkeq⟩ := hk
    subst hkeq
    simp only [List.mem_filter] at hrk
    have hkey : mapKeyOf r = some k := of_decide_eq_true hrk.2
    have hks : (mapKeyOf r).isSome = true := by rw [hkey]; rfl
    rw [mapKeyOf_isSome] at hks
    simp only [Bool.and_eq_true] at hks
    exact ⟨hks.1, hks.2.1, hks.2.2⟩
  · rintro ⟨hla, hlo, hp⟩
    have hgeo : r ∈ rows.filter (fun x => x.latitude.isSome && x.longitude.isSome) :=
      List.mem_filter.mpr ⟨hr, by simp [hla, hlo]⟩
    have hks : (mapKeyOf r).isSome = true := by
      rw [mapKeyOf_isSome, hla, hlo, hp]; rfl
    obtain ⟨k, hkey⟩ := Option.isSome_iff_exists.mp hks
    refine ⟨(k, (rows.filter (fun x => x.latitude.isSome && x.longitude.isSome)).filter
        (fun x => decide (mapKeyOf x = some k))), ?_, ?_⟩
    · simp only [updateMapGroups, List.mem_map]
      exact ⟨k, List.mem_dedup.mpr (List.mem_filterMap.mpr ⟨r, hgeo, hkey⟩), rfl⟩
    · exact List.mem_filter.mpr ⟨hgeo, by simp [hkey]⟩

/-- Witness for C4: the amended statement instantiated at a concrete raw
record and a one-row dataset whose row has full coordinates and province. -/
theorem c4_null_fill_amended_witness :
    (loadRow rawCounts).region_txt = rawCounts.region_txt.getD "Unknown region" ∧
    (loadRow rawCounts).attacktype1_txt = rawCounts.attacktype1_txt.getD "Unknown attack" ∧
    (loadRow rawCounts).targtype1_txt = rawCounts.targtype1_txt.getD "Unknown target" ∧
    (loadRow rawCounts).country_txt = rawCounts.country_txt.getD "Unknown country" ∧
    (loadRow rawCounts).city = rawCounts.city.getD "Unknown city" ∧
    (loadRow rawCounts).weaptype1_txt =
      (if rawCounts.weaptype1_txt.getD "Unknown weapon" = vehicleLongLabel
       then "Vehicle" else rawCounts.weaptype1_txt.getD "Unknown weapon") ∧
    (loadRow rawCounts).gname = rawCounts.gname.getD "Unknown group" ∧
    (loadRow rawCounts).provstate = rawCounts.provstate ∧
    ((∃ kg ∈ updateMapGroups [rowOrg], rowOrg ∈ kg.2) ↔
      (rowOrg.latitude.isSome = true ∧ rowOrg.longitude.isSome = true ∧
       rowOrg.provstate.isSome = true)) :=
  c4_null_fill_amended rawCounts [rowOrg] rowOrg (by decide)

/-! ### C10: organized vs unaffiliated split -/

/-- Claim C10: every output row `(year, organized, unorganized)` of
`update_org_split` satisfies `organized + unorganized = total incidents of
that year in the subset`, and both components are non-negative (organized
counts the rows whose group name differs from the sentinel
`"Unknown group"`, unorganized is the remainder). -/
theorem c10_org_split_sum (subset : List Row) (y o u : Int)
    (h : (y, o, u) ∈ updateOrgSplit subset) :
    o + u = ((subset.filter (fun r => decide (r.iyear = y))).length : Int) ∧
    0 ≤ o ∧ 0 ≤ u := by
  simp only [updateOrgSplit, List.mem_map] at h
  obtain ⟨y', _, heq⟩ := h
  rw [Prod.ext_iff] at heq
  obtain ⟨hy, heq2⟩ := heq
  rw [Prod.ext_iff] at heq2
  obtain ⟨ho, hu⟩ := heq2
  simp only at hy ho hu
  subst hy
  have hle : ((subset.filter (fun r => decide (r.iyear = y'))).countP
      (fun r => decide (r.gname ≠ "Unknown group")) : Int) ≤
      ((subset.filter (fun r => decide (r.iyear = y'))).length : Int) := by
    exact_mod_cast List.countP_le_length _
  omega

/-- Witness for C10 at the one-row dataset: the single 1999 incident has a
named group, so the output row is `(1999, 1, 0)`. -/
theorem c10_org_split_sum_witness :
    (1 : Int) + 0 = (([rowOrg].filter (fun r => decide (r.iyear = 1999))).length : Int) ∧
    (0 : Int) ≤ 1 ∧ (0 : Int) ≤ 0 :=
  c10_org_split_sum [rowOrg] 1999 1 0 (by decide)

/-! ### C6: Top-N truncation -/

/-- Counterexample to claim C6: `update_attack_bar` sorts but never
truncates — on a subset with 26 distinct attack types its output has 26
rows, exceeding every fixed bound between 8 and 25. -/
theorem c6_attack_bar_counterexample :
    (updateAttackBar manyAttackRows).length = 26 ∧
    25 < (updateAttackBar manyAttackRows).length := by
  decide

theorem byCasDesc_total : ∀ x y : CatAgg, (byCasDesc x y || byCasDesc y x) = true := by
  intro x y
  rcases le_total y.casualties x.casualties with h | h <;> simp [byCasDesc, h]

theorem byCasDesc_trans : ∀ x y z : CatAgg,
    byCasDesc x y = true → byCasDesc y z = true → byCasDesc x z = true := by
  intro x y z h1 h2
  simp only [byCasDesc, decide_eq_true_eq] at h1 h2 ⊢
  exact le_trans h2 h1

theorem byIncDesc_total : ∀ x y : CatAgg, (byIncDesc x y || byIncDesc y x) = true := by
  intro x y
  rcases le_total y.incidents x.incidents with h | h <;> simp [byIncDesc, h]

theorem byIncDesc_trans : ∀ x y z : CatAgg,
    byIncDesc x y = true → byIncDesc y z = true → byIncDesc x z = true := by
  intro x y z h1 h2
  simp only [byIncDesc, decide_eq_true_eq] at h1 h2 ⊢
  exact le_trans h2 h1

theorem rowCasDesc_total : ∀ x y : Row, (rowCasDesc x y || rowCasDesc y x) = true := by
  intro x y
  rcases le_total y.casualties x.casualties with h | h <;> simp [rowCasDesc, h]

theorem rowCasDesc_trans : ∀ x y z : Row,
    rowCasDesc x y = true → rowCasDesc y z = true → rowCasDesc x z = true := by
  intro x y z h1 h2
  simp only [rowCasDesc, decide_eq_true_eq] at h1 h2 ⊢
  exact le_trans h2 h1

theorem cityDesc_total : ∀ x y : String × Nat × ℚ, (cityDesc x y || cityDesc y x) = true := by
  intro x y
  rcases le_total y.2.1 x.2.1 with h | h <;> simp [cityDesc, h]

theorem cityDesc_trans : ∀ x y z : String × Nat × ℚ,
    cityDesc x y = true → cityDesc y z = true → cityDesc x z = true := by
  intro x y z h1 h2
  simp only [cityDesc, decide_eq_true_eq] at h1 h2 ⊢
  exact le_trans h2 h1

/-- Claim C6 as amended: the country (12), target (12), weapon (10),
hotspot-city (10) and top-events (25) aggregations each sort by their
ranking key descending and truncate to a fixed maximum between 8 and 25;
the attack-type aggregation sorts by incident count descending but applies
no truncation — its row count equals the number of distinct attack types in
the subset. -/
theorem c6_topn_amended (subset : List Row) (focus : String) :
    (updateCountryBar subset).length ≤ 12 ∧
    (updateCountryBar subset).Pairwise (fun a b => b.casualties ≤ a.casualties) ∧
    (updateTargetBar subset).length ≤ 12 ∧
    (updateTargetBar subset).Pairwise (fun a b => b.casualties ≤ a.casualties) ∧
    (updateWeaponBar subset).length ≤ 10 ∧
    (updateWeaponBar subset).Pairwise (fun a b => b.incidents ≤ a.incidents) ∧
    (updateHotspots focus subset).length ≤ 10 ∧
    (updateHotspots focus subset).Pairwise (fun a b => b.2.1 ≤ a.2.1) ∧
    (updateTable subset).length ≤ 25 ∧
    (updateTable subset).Pairwise (fun a b => b.casualties ≤ a.casualties) ∧
    (updateAttackBar subset).Pairwise (fun a b => b.incidents ≤ a.incidents) ∧
    (updateAttackBar subset).length = (subset.map (fun r => r.attacktype1_txt)).dedup.length := by
  refine ⟨List.length_take_le _ _,
    (((pairwise_sortBy _ byCasDesc_total byCasDesc_trans).sublist
      (List.take_sublist _ _)).imp fun h => of_decide_eq_true h),
    List.length_take_le _ _,
    (((pairwise_sortBy _ byCasDesc_total byCasDesc_trans).sublist
      (List.take_sublist _ _)).imp fun h => of_decide_eq_true h),
    List.length_take_le _ _,
    (((pairwise_sortBy _ byIncDesc_total byIncDesc_trans).sublist
      (List.take_sublist _ _)).imp fun h => of_decide_eq_true h),
    List.length_take_le _ _,
    (((pairwise_sortBy _ cityDesc_total cityDesc_trans).sublist
      (List.take_sublist _ _)).imp fun h => of_decide_eq_true h),
    List.length_take_le _ _,
    (((pairwise_sortBy _ rowCasDesc_total rowCasDesc_trans).sublist
      (List.take_sublist _ _)).imp fun h => of_decide_eq_true h),
    ((pairwise_sortBy _ byIncDesc_total byIncDesc_trans).imp
      fun h => of_decide_eq_true h), ?_⟩
  simp [updateAttackBar, length_sortBy, catAggBy]

/-! ### C2: empty-subset outputs -/

theorem colsNil_dictClear (prev : List String) : colsNil (dictClear prev) := by
  intro c hc
  simp only [dictClear, List.mem_map] at hc
  obtain ⟨k, _, rfl⟩ := hc
  rfl

theorem colsNil_setCol_nil {t : TabSource} (k : String) (h : colsNil t) :
    colsNil (setCol t k []) := by
  intro c hc
  rw [setCol] at hc
  split at hc
  · rcases List.mem_map.mp hc with ⟨c', hc', rfl⟩
    by_cases h2 : c'.1 = k
    · simp [h2]
    · simp only [h2, if_false]
      exact h c' hc'
  · rcases List.mem_append.mp hc with hc | hc
    · exact h c hc
    · simp only [List.mem_singleton] at hc
      subst hc
      rfl

theorem colsNil_mapEmptyData (prev : List String) :
    colsNil (updateMapEmptyData prev) :=
  colsNil_setCol_nil _ (colsNil_setCol_nil _ (colsNil_dictClear prev))

theorem colsNil_consMap (k : String) (names : List String) :
    colsNil ((k, ([] : List Val)) :: names.map (fun n => (n, ([] : List Val)))) := by
  intro c hc
  rcases List.mem_cons.mp hc with rfl | hc
  · rfl
  · rcases List.mem_map.mp hc with ⟨n, _, rfl⟩
    rfl

theorem keysOf_dictClear (prev : List String) : keysOf (dictClear prev) = prev := by
  simp [keysOf, dictClear, List.map_map, Function.comp_def]

theorem keysOf_consMap (k : String) (names : List String) :
    keysOf ((k, ([] : List Val)) :: names.map (fun n => (n, ([] : List Val)))) =
      k :: names := by
  simp [keysOf, List.map_map, Function.comp_def]

/-- Counterexample to claim C2: on an empty filtered subset,
`update_region_share` publishes only the index column `"decade"`, while the
source previously held (from its initialization, and from every non-empty
update) one further column per region: the key set is not preserved.  Shown
at a singleton region list. -/
theorem c2_key_set_counterexample :
    keysOf (regionShareInitData ["South Asia"]) = ["decade", "South Asia"] ∧
    keysOf regionShareEmptyData = ["decade"] ∧
    keysOf regionShareEmptyData ≠ keysOf (regionShareInitData ["South Asia"]) := by
  decide

/-- Claim C2 as amended: on an empty filtered subset every aggregation of
the registry returns without raising and publishes a well-formed output all
of whose columns are empty sequences; the `{key: [] for key in ...}`
branches and the fixed-dictionary branches preserve their key set, but
`update_region_share`, `update_attack_share` and `update_target_percent`
publish only their index column, dropping the per-category keys; and the
success/failed outcome aggregation publishes its empty output — also
whenever the outcome total is zero — rather than dividing by zero. -/
theorem c2_empty_subset_outputs (regions topW topO : List String)
    (mapPrev timelinePrev boxPrev scatterPrev circlePrev aRegPrev suiPrev
     tacPrev tablePrev : List String) :
    (∀ t ∈ c2EmptyRegistry regions topW topO mapPrev timelinePrev boxPrev
        scatterPrev circlePrev aRegPrev suiPrev tacPrev tablePrev, colsNil t) ∧
    (∀ prev, keysOf (dictClear prev) = prev) ∧
    keysOf (updateMapEmptyData mapInitKeys) = mapInitKeys ∧
    keysOf (regionStackEmptyData regions) = "year" :: regions ∧
    keysOf (weaponShareEmptyData topW) = "year" :: topW ∧
    keysOf (orgTrendEmptyData topO) = "year" :: topO ∧
    keysOf regionShareEmptyData = ["decade"] ∧
    keysOf attackShareEmptyData = ["year"] ∧
    keysOf targetPercentEmptyData = ["year"] ∧
    updateSuccessSplit [] = successEmptyData ∧
    (∀ s : List Row, successTotal s = 0 → updateSuccessSplit s = successEmptyData) := by
  refine ⟨?_, keysOf_dictClear, by decide, keysOf_consMap _ _, keysOf_consMap _ _,
    keysOf_consMap _ _, by decide, by decide, by decide, rfl, ?_⟩
  · intro t ht
    fin_cases ht <;>
      first
        | exact colsNil_dictClear _
        | exact colsNil_mapEmptyData _
        | exact colsNil_consMap _ _
        | decide
  · intro s h
    cases s with
    | nil => rfl
    | cons a t =>
      rw [successTotal] at h
      simp [updateSuccessSplit, h]

/-- Witness for C2: the outcome aggregation publishes the empty output on
the empty subset and on a non-empty subset whose single row has a null
outcome flag (total zero — the division-by-zero guard). -/
theorem c2_empty_subset_outputs_witness :
    updateSuccessSplit [] = successEmptyData ∧
    updateSuccessSplit [rowFlagless] = successEmptyData :=
  ⟨(c2_empty_subset_outputs [] [] [] [] [] [] [] [] [] [] [] []).2.2.2.2.2.2.2.2.2.1,
   (c2_empty_subset_outputs [] [] [] [] [] [] [] [] [] [] [] []).2.2.2.2.2.2.2.2.2.2
     [rowFlagless] (by decide)⟩

/-! ### C3: weapon-share rows contain NaN holes -/

theorem list_sum_map_div (l : List ℚ) (c : ℚ) :
    (l.map (fun x => x / c)).sum = l.sum / c := by
  induction l with
  | nil => simp
  | cons a t ih => simp [ih, add_div]

/-- Every row published by the `unstack(fill_value=0)` share pivot
(`update_attack_share`, `update_target_percent`) sums to exactly 1: a year
appears in the pivot index only if some restricted row carries it, so the
row total is at least 1, the `replace(0, 1)` floor is inert, and dividing
the zero-filled counts by their own total gives shares summing to 1. -/
theorem sharePivotRows_sum_one (cats : List String) (key : Row → String)
    (subset : List Row) (y : Int) (vals : List ℚ)
    (h : (y, vals) ∈ sharePivotRows cats key subset) : vals.sum = 1 := by
  simp only [sharePivotRows, List.mem_map] at h
  obtain ⟨y', hy', heq⟩ := h
  rw [Prod.ext_iff] at heq
  obtain ⟨hy, hv⟩ := heq
  simp only at hy hv
  subst hy
  subst hv
  rw [mem_sortBy, List.mem_dedup, List.mem_map] at hy'
  obtain ⟨r, hr, hry⟩ := hy'
  have hcat : key r ∈ cats := of_decide_eq_true (List.mem_filter.mp hr).2
  set restricted :=
    subset.filter (fun r => decide (key r ∈ cats)) with hres
  set counts : List ℚ := cats.map (fun a =>
    ((restricted.filter
      (fun r => decide (r.iyear = y' ∧ key r = a))).length : ℚ)) with hcounts
  have hmem1 : r ∈ restricted.filter
      (fun x => decide (x.iyear = y' ∧ key x = key r)) :=
    List.mem_filter.mpr ⟨hr, by simp [hry]⟩
  have hpos : (1 : ℚ) ≤ ((restricted.filter
      (fun x => decide (x.iyear = y' ∧ key x = key r))).length : ℚ) := by
    have := List.length_pos.mpr (List.ne_nil_of_mem hmem1)
    exact_mod_cast this
  have hin : ((restricted.filter
      (fun x => decide (x.iyear = y' ∧ key x = key r))).length : ℚ) ∈ counts := by
    rw [hcounts]
    exact List.mem_map.mpr ⟨key r, hcat, rfl⟩
  have hnonneg : ∀ x ∈ counts, (0 : ℚ) ≤ x := by
    intro x hx
    rw [hcounts] at hx
    obtain ⟨a, _, rfl⟩ := List.mem_map.mp hx
    positivity
  have htot : (1 : ℚ) ≤ counts.sum :=
    le_trans hpos (List.single_le_sum hnonneg _ hin)
  have hne : counts.sum ≠ 0 := by linarith
  have hfloor : (if counts.sum = 0 then (1 : ℚ) else counts.sum) = counts.sum :=
    if_neg hne
  rw [hfloor, list_sum_map_div, div_self hne]

/-- Evaluation of `update_weapon_share` at the failing input.  The
presence pattern of the published cells (NaN is `none`) is
`[(2000, [present, NaN]), (2001, [NaN, present])]`: the year-2000 row is
`[1.0, NaN]`, so its values do not sum to 1.0 — the sum is NaN — although
2000 has an incident among the top weapons, because
`pivot(...).reindex(columns=..., fill_value=0)` zero-fills only newly
introduced columns and leaves the missing (year, weapon) combinations NaN.
(The `unstack(fill_value=0)` pivots behind `update_attack_share` and
`update_target_percent` zero-fill instead, and their rows provably sum to
1 — see `sharePivotRows_sum_one`.) -/
theorem c3_weapon_share_nan_eval :
    ((updateWeaponShare topWeaponsEx weaponShareExRows).map
        (fun rw => (rw.1, rw.2.map Option.isSome))) =
      [(2000, [true, false]), (2001, [false, true])] := by
  decide

/-! ### C7: boxplot whisker ordering -/

theorem floor_toNat_cast {h : ℚ} (h0 : 0 ≤ h) :
    ((⌊h⌋.toNat : ℕ) : ℚ) = ((⌊h⌋ : ℤ) : ℚ) := by
  exact_mod_cast Int.toNat_of_nonneg (Int.floor_nonneg.mpr h0)

theorem interp_g_nonneg {h : ℚ} (h0 : 0 ≤ h) :
    0 ≤ h - ((⌊h⌋.toNat : ℕ) : ℚ) := by
  rw [floor_toNat_cast h0]
  linarith [Int.floor_le h]

theorem interp_g_lt_one {h : ℚ} (h0 : 0 ≤ h) :
    h - ((⌊h⌋.toNat : ℕ) : ℚ) < 1 := by
  rw [floor_toNat_cast h0]
  linarith [Int.lt_floor_add_one h]

theorem floor_toNat_le {h : ℚ} {m : ℕ} (hub : h ≤ (m : ℚ)) :
    ⌊h⌋.toNat ≤ m := by
  have h1 : ⌊h⌋ ≤ (m : ℤ) := by
    have h2 := Int.floor_mono hub
    rwa [Int.floor_natCast] at h2
  exact Int.toNat_le.mpr h1

theorem sorted_getD_mono {xs : List ℚ} (hs : List.Pairwise (· ≤ ·) xs)
    {i j : ℕ} (hij : i ≤ j) (hj : j < xs.length) :
    xs.getD i 0 ≤ xs.getD j 0 := by
  rcases Nat.eq_or_lt_of_le hij with rfl | hlt
  · exact le_refl _
  · have hi : i < xs.length := lt_trans hlt hj
    have hget := List.pairwise_iff_get.mp hs ⟨i, hi⟩ ⟨j, hj⟩
      (Fin.mk_lt_mk.mpr hlt)
    rw [List.getD_eq_getElem?_getD, List.getD_eq_getElem?_getD,
      List.getElem?_eq_getElem hi, List.getElem?_eq_getElem hj]
    simpa using hget

theorem sortBy_ratLe_pairwise (l : List ℚ) :
    List.Pairwise (· ≤ ·) (sortBy ratLe l) := by
  have htot : ∀ x y : ℚ, (ratLe x y || ratLe y x) = true := by
    intro x y
    rcases le_total x y with h | h <;> simp [ratLe, h]
  have htr : ∀ x y z : ℚ, ratLe x y = true → ratLe y z = true →
      ratLe x z = true := by
    intro x y z h1 h2
    simp only [ratLe, decide_eq_true_eq] at h1 h2 ⊢
    exact le_trans h1 h2
  exact (pairwise_sortBy l htot htr).imp (fun h => of_decide_eq_true h)

theorem interpAt_low {xs : List ℚ} (hs : List.Pairwise (· ≤ ·) xs) {h : ℚ}
    (h0 : 0 ≤ h) : xs.getD (⌊h⌋.toNat) 0 ≤ interpAt xs h := by
  simp only [interpAt]
  split_ifs with hb
  · have hg := interp_g_nonneg h0
    have hd : 0 ≤ xs.getD (⌊h⌋.toNat + 1) 0 - xs.getD (⌊h⌋.toNat) 0 :=
      sub_nonneg.mpr (sorted_getD_mono hs (Nat.le_succ _) hb)
    nlinarith
  · exact le_refl _

theorem interpAt_high {xs : List ℚ} (hs : List.Pairwise (· ≤ ·) xs) {h : ℚ}
    (h0 : 0 ≤ h) (hb : ⌊h⌋.toNat + 1 < xs.length) :
    interpAt xs h ≤ xs.getD (⌊h⌋.toNat + 1) 0 := by
  simp only [interpAt]
  rw [if_pos hb]
  have hg1 := interp_g_lt_one h0
  have hg0 := interp_g_nonneg h0
  have hd : 0 ≤ xs.getD (⌊h⌋.toNat + 1) 0 - xs.getD (⌊h⌋.toNat) 0 :=
    sub_nonneg.mpr (sorted_getD_mono hs (Nat.le_succ _) hb)
  nlinarith

theorem interpAt_mono {xs : List ℚ} (hs : List.Pairwise (· ≤ ·) xs)
    (hn : xs ≠ []) {h h' : ℚ} (h0 : 0 ≤ h) (hhh : h ≤ h')
    (hub : h' ≤ ((xs.length : ℚ) - 1)) :
    interpAt xs h ≤ interpAt xs h' := by
  have hn1 : 1 ≤ xs.length := List.length_pos.mpr hn
  have hub' : h' ≤ ((xs.length - 1 : ℕ) : ℚ) := by
    rwa [Nat.cast_sub hn1, Nat.cast_one]
  have h0' : 0 ≤ h' := le_trans h0 hhh
  have him : ⌊h'⌋.toNat ≤ xs.length - 1 := floor_toNat_le hub'
  have hii : ⌊h⌋.toNat ≤ ⌊h'⌋.toNat := Int.toNat_le_toNat (Int.floor_mono hhh)
  rcases Nat.eq_or_lt_of_le hii with heq | hlt
  · simp only [interpAt, ← heq]
    split_ifs with hb
    · have hd : 0 ≤ xs.getD (⌊h⌋.toNat + 1) 0 - xs.getD (⌊h⌋.toNat) 0 :=
        sub_nonneg.mpr (sorted_getD_mono hs (Nat.le_succ _) hb)
      have hgg : h - ((⌊h⌋.toNat : ℕ) : ℚ) ≤ h' - ((⌊h⌋.toNat : ℕ) : ℚ) := by
        linarith
      nlinarith
    · exact le_refl _
  · have hbn : ⌊h⌋.toNat + 1 < xs.length := by omega
    have h1 : interpAt xs h ≤ xs.getD (⌊h⌋.toNat + 1) 0 :=
      interpAt_high hs h0 hbn
    have h2 : xs.getD (⌊h⌋.toNat + 1) 0 ≤ xs.getD (⌊h'⌋.toNat) 0 :=
      sorted_getD_mono hs (by omega) (by omega)
    have h3 : xs.getD (⌊h'⌋.toNat) 0 ≤ interpAt xs h' := interpAt_low hs h0'
    linarith

theorem quantileQ_mono {xs : List ℚ} (hs : List.Pairwise (· ≤ ·) xs)
    (hn : xs ≠ []) {p p' : ℚ} (hp0 : 0 ≤ p) (hpp : p ≤ p') (hp1 : p' ≤ 1) :
    quantileQ xs p ≤ quantileQ xs p' := by
  have hn1 : 1 ≤ xs.length := List.length_pos.mpr hn
  have hm0 : (0 : ℚ) ≤ (xs.length : ℚ) - 1 := by
    have hc : (1 : ℚ) ≤ (xs.length : ℚ) := by exact_mod_cast hn1
    linarith
  exact interpAt_mono hs hn (mul_nonneg hp0 hm0)
    (mul_le_mul_of_nonneg_right hpp hm0) (by nlinarith)

theorem quantileQ_zero (xs : List ℚ) : quantileQ xs 0 = xs.getD 0 0 := by
  simp [quantileQ, interpAt]

theorem quantileQ_one {xs : List ℚ} (hn : xs ≠ []) :
    quantileQ xs 1 = xs.getD (xs.length - 1) 0 := by
  have hn1 : 1 ≤ xs.length := List.length_pos.mpr hn
  have hcast : (1 : ℚ) * ((xs.length : ℚ) - 1) = ((xs.length - 1 : ℕ) : ℚ) := by
    rw [one_mul, Nat.cast_sub hn1, Nat.cast_one]
  rw [quantileQ, hcast, interpAt]
  simp only [Int.floor_natCast, Int.toNat_natCast]
  rw [if_neg (by omega)]

theorem filterMap_id_map_some {α β : Type} (f : α → β) (l : List α) :
    (l.map (fun a => some (f a))).filterMap id = l.map f := by
  induction l with
  | nil => rfl
  | cons a t ih => simp [List.filterMap_cons, ih]

theorem boxRegionStats_spec (region : String) (values : List (Option ℚ))
    (hne : values.filterMap id ≠ []) :
    ∃ s, boxRegionStats region values = some s ∧
      s.q1 = quantileQ (sortBy ratLe (values.filterMap id)) (1/4) ∧
      s.q2 = quantileQ (sortBy ratLe (values.filterMap id)) (1/2) ∧
      s.q3 = quantileQ (sortBy ratLe (values.filterMap id)) (3/4) ∧
      s.lower = max ((sortBy ratLe (values.filterMap id)).getD 0 0)
        (s.q1 - 3/2 * (s.q3 - s.q1)) ∧
      s.upper = min ((sortBy ratLe (values.filterMap id)).getD
          ((sortBy ratLe (values.filterMap id)).length - 1) 0)
        (s.q3 + 3/2 * (s.q3 - s.q1)) ∧
      s.lower ≤ s.q1 ∧ s.q1 ≤ s.q2 ∧ s.q2 ≤ s.q3 ∧ s.q3 ≤ s.upper := by
  have hcond : ¬((values.filterMap id).isEmpty = true) := by
    simpa [List.isEmpty_iff] using hne
  have hsn : sortBy ratLe (values.filterMap id) ≠ [] := by
    intro hcon
    apply hne
    have hlen := length_sortBy ratLe (values.filterMap id)
    rw [hcon] at hlen
    exact List.length_eq_zero.mp hlen.symm
  have hs := sortBy_ratLe_pairwise (values.filterMap id)
  have h14 : quantileQ (sortBy ratLe (values.filterMap id)) (1/4) ≤
      quantileQ (sortBy ratLe (values.filterMap id)) (1/2) :=
    quantileQ_mono hs hsn (by norm_num) (by norm_num) (by norm_num)
  have h24 : quantileQ (sortBy ratLe (values.filterMap id)) (1/2) ≤
      quantileQ (sortBy ratLe (values.filterMap id)) (3/4) :=
    quantileQ_mono hs hsn (by norm_num) (by norm_num) (by norm_num)
  have hmin : (sortBy ratLe (values.filterMap id)).getD 0 0 ≤
      quantileQ (sortBy ratLe (values.filterMap id)) (1/4) := by
    rw [← quantileQ_zero]
    exact quantileQ_mono hs hsn le_rfl (by norm_num) (by norm_num)
  have hmax : quantileQ (sortBy ratLe (values.filterMap id)) (3/4) ≤
      (sortBy ratLe (values.filterMap id)).getD
        ((sortBy ratLe (values.filterMap id)).length - 1) 0 := by
    rw [← quantileQ_one hsn]
    exact quantileQ_mono hs hsn (by norm_num) (by norm_num) le_rfl
  have hiqr : 0 ≤ quantileQ (sortBy ratLe (values.filterMap id)) (3/4) -
      quantileQ (sortBy ratLe (values.filterMap id)) (1/4) := by linarith
  have hout : boxRegionStats region values = some (BoxStat.mk region
      (quantileQ (sortBy ratLe (values.filterMap id)) (1/4))
      (quantileQ (sortBy ratLe (values.filterMap id)) (1/2))
      (quantileQ (sortBy ratLe (values.filterMap id)) (3/4))
      (max ((sortBy ratLe (values.filterMap id)).getD 0 0)
        (quantileQ (sortBy ratLe (values.filterMap id)) (1/4) -
          3/2 * (quantileQ (sortBy ratLe (values.filterMap id)) (3/4) -
            quantileQ (sortBy ratLe (values.filterMap id)) (1/4))))
      (min ((sortBy ratLe (values.filterMap id)).getD
          ((sortBy ratLe (values.filterMap id)).length - 1) 0)
        (quantileQ (sortBy ratLe (values.filterMap id)) (3/4) +
          3/2 * (quantileQ (sortBy ratLe (values.filterMap id)) (3/4) -
            quantileQ (sortBy ratLe (values.filterMap id)) (1/4))))) := by
    simp only [boxRegionStats, if_neg hcond]
  refine ⟨_, hout, rfl, rfl, rfl, rfl, rfl, ?_, h14, h24, ?_⟩
  · exact max_le hmin (by linarith)
  · exact le_min hmax (by linarith)

theorem updateBoxplot_chain (subset : List Row) (s : BoxStat)
    (hmem : s ∈ updateBoxplot subset) :
    s.lower ≤ s.q1 ∧ s.q1 ≤ s.q2 ∧ s.q2 ≤ s.q3 ∧ s.q3 ≤ s.upper := by
  simp only [updateBoxplot, List.mem_filterMap] at hmem
  obtain ⟨reg, hreg, hsome⟩ := hmem
  rw [mem_sortBy, List.mem_dedup, List.mem_map] at hreg
  obtain ⟨r, hr, hrreg⟩ := hreg
  have hrf : r ∈ subset.filter (fun x => decide (x.region_txt = reg)) :=
    List.mem_filter.mpr ⟨hr, by simp [hrreg]⟩
  have hne : (((subset.filter (fun x => decide (x.region_txt = reg))).map
      (fun x => some ((x.nkill : ℚ)))).filterMap id) ≠ [] := by
    rw [filterMap_id_map_some (fun x : Row => ((x.nkill : ℚ)))]
    intro hcon
    rw [List.map_eq_nil_iff] at hcon
    rw [hcon] at hrf
    exact List.not_mem_nil r hrf
  obtain ⟨t, hteq, _, _, _, _, _, hc1, hc2, hc3, hc4⟩ :=
    boxRegionStats_spec reg _ hne
  rw [hsome] at hteq
  obtain rfl : s = t := Option.some_injective _ hteq
  exact ⟨hc1, hc2, hc3, hc4⟩

/-- Claim C7: every row of the boxplot aggregation satisfies
`lower ≤ q1 ≤ median ≤ q3 ≤ upper`; for every non-empty per-region sample
(after dropping nulls) the published statistics are exactly
`lower = max(sample min, Q1 - 1.5 IQR)` and
`upper = min(sample max, Q3 + 1.5 IQR)` over the linear-interpolation
quartiles; and a region whose sample is empty after null-filtering is
omitted (`none`) rather than zero-filled. -/
theorem c7_boxplot_whiskers :
    (∀ subset : List Row, ∀ s ∈ updateBoxplot subset,
      s.lower ≤ s.q1 ∧ s.q1 ≤ s.q2 ∧ s.q2 ≤ s.q3 ∧ s.q3 ≤ s.upper) ∧
    (∀ region : String, ∀ values : List (Option ℚ),
      values.filterMap id ≠ [] →
      ∃ s, boxRegionStats region values = some s ∧
        s.q1 = quantileQ (sortBy ratLe (values.filterMap id)) (1/4) ∧
        s.q2 = quantileQ (sortBy ratLe (values.filterMap id)) (1/2) ∧
        s.q3 = quantileQ (sortBy ratLe (values.filterMap id)) (3/4) ∧
        s.lower = max ((sortBy ratLe (values.filterMap id)).getD 0 0)
          (s.q1 - 3/2 * (s.q3 - s.q1)) ∧
        s.upper = min ((sortBy ratLe (values.filterMap id)).getD
            ((sortBy ratLe (values.filterMap id)).length - 1) 0)
          (s.q3 + 3/2 * (s.q3 - s.q1)) ∧
        s.lower ≤ s.q1 ∧ s.q1 ≤ s.q2 ∧ s.q2 ≤ s.q3 ∧ s.q3 ≤ s.upper) ∧
    (∀ region : String, ∀ values : List (Option ℚ),
      values.filterMap id = [] → boxRegionStats region values = none) := by
  refine ⟨updateBoxplot_chain, boxRegionStats_spec, ?_⟩
  intro region values hempty
  rw [boxRegionStats, if_pos]
  rw [hempty]
  rfl

/-- Witness for C7: a concrete four-value sample (with one null dropped)
produces a statistics row, and the all-null sample is omitted. -/
theorem c7_boxplot_whiskers_witness :
    (∃ s, boxRegionStats "South Asia" [some 10, some 0, none, some 2] = some s) ∧
    boxRegionStats "East Asia" [none] = none := by
  obtain ⟨s, hs, _⟩ :=
    c7_boxplot_whiskers.2.1 "South Asia" [some 10, some 0, none, some 2]
      (by decide)
  exact ⟨⟨s, hs⟩, c7_boxplot_whiskers.2.2 "East Asia" [none] rfl⟩

/-! ### C9: Mercator round trip -/

/-- Claim C9: for `|lat| < 90`, `to_mercator` computes exactly the
spherical Web Mercator formula, and composing it with the mathematical
inverse of that formula recovers the original point exactly (the real-number
statement of "within floating tolerance"). -/
theorem c9_mercator_round_trip (lat lon : ℝ) (h : |lat| < 90) :
    mercatorInv (toMercator lat lon) = (lat, lon) := by
  obtain ⟨h1, h2⟩ := abs_lt.mp h
  have hpi := Real.pi_pos
  have hθ0 : 0 < (90 + lat) * Real.pi / 360 := by
    have := mul_pos (show (0 : ℝ) < 90 + lat by linarith) hpi
    linarith
  have hθhi : (90 + lat) * Real.pi / 360 < Real.pi / 2 := by
    have := mul_pos (show (0 : ℝ) < 90 - lat by linarith) hpi
    nlinarith
  have htan : 0 < Real.tan ((90 + lat) * Real.pi / 360) :=
    Real.tan_pos_of_pos_of_lt_pi_div_two hθ0 hθhi
  have hR : (6378137 : ℝ) ≠ 0 := by norm_num
  simp only [toMercator, mercatorInv]
  rw [Prod.mk.injEq]
  constructor
  · rw [mul_div_cancel_right₀ _ hR, Real.exp_log htan,
      Real.arctan_tan (by linarith) hθhi]
    field_simp
  · field_simp
    ring

/-- Witness for C9 at the origin. -/
theorem c9_mercator_round_trip_witness :
    mercatorInv (toMercator 0 0) = (0, 0) :=
  c9_mercator_round_trip 0 0 (by norm_num)

/-! ### C5: reset restores defaults but does not trigger exactly one refresh -/

theorem setW_eq {α : Type} [DecidableEq α] (old new : α) (n : ℕ) :
    setW old new n = n + (if new = old then 0 else 1) := by
  unfold setW
  split_ifs <;> omega

/-- Counterexample to claim C5: with every filter at its startup default
except the outcome selector, `reset_filters` triggers two full refreshes —
the callback fired by writing `success_select.value` back to `"All"`, plus
the final explicit `update_dashboard()` — not exactly one. -/
theorem c5_reset_refresh_counterexample :
    (resetFilters exData5 wOffDefault 0).2 = 2 ∧ (2 : ℕ) ≠ 1 := by
  constructor
  · by_cases hh : (hotspotRegionsOf exData5).isEmpty = true
    · simp [resetFilters, setW, wOffDefault, startupWidgets, hh]
    · simp [resetFilters, setW, wOffDefault, startupWidgets, hh]
  · decide

/-- Claim C5 as amended: `reset_filters` restores every filter parameter
(and the highlight selector) to a value identical to its recomputed startup
default — the same expressions re-evaluated on the unchanged cached
dataset, hence bit-for-bit equal — but it triggers `1 + k` full refreshes,
where `k` is the number of assigned widgets whose value actually differed
from its default: one refresh per fired `on_change` callback plus the final
explicit `update_dashboard()`; exactly one only when every widget is
already at its default. -/
theorem c5_reset_amended (data : List Row) (w : Widgets) (n : ℕ) :
    (resetFilters data w n).1.yearValue = (startupWidgets data).yearValue ∧
    (resetFilters data w n).1.regionsValue = (startupWidgets data).regionsValue ∧
    (resetFilters data w n).1.attacksValue = (startupWidgets data).attacksValue ∧
    (resetFilters data w n).1.targetsValue = (startupWidgets data).targetsValue ∧
    (resetFilters data w n).1.fatalityValue = (startupWidgets data).fatalityValue ∧
    (resetFilters data w n).1.casualtyValue = (startupWidgets data).casualtyValue ∧
    (resetFilters data w n).1.successValue = (startupWidgets data).successValue ∧
    (resetFilters data w n).1.suicideValue = (startupWidgets data).suicideValue ∧
    (resetFilters data w n).1.highlightValue = (startupWidgets data).highlightValue ∧
    (resetFilters data w n).2 = n + 1 + changedCount data w := by
  by_cases hh : (hotspotRegionsOf data).isEmpty = true <;>
    simp [resetFilters, changedCount, setW_eq, hh] <;>
    ring
